import Mathlib

set_option maxRecDepth 100000

/-!
Shallow embedding of the MBZUAI-HPC-Toolkit template generators
(`local_to_hpc.py` and `tools.py`) and proofs about the rendering
behaviour described in the specification.

The Python generators are pure string-building functions; they are
translated here as Lean functions on `String`.  Python f-string
interpolation becomes explicit `++` concatenation, `str.replace` on
single characters becomes character-list maps/filters, and
`textwrap.dedent` is modelled faithfully on the character list of the
string.  Streamlit session state (`st.session_state.generated_script_t2`)
is modelled as an explicitly passed `Option String` value.
-/

/-! ### Generic character-list helpers -/

/-- Bool check that `n` occurs contiguously inside `h`. -/
def containsB (n : List Char) : List Char → Bool
  | [] => n.isEmpty
  | c :: t => n.isPrefixOf (c :: t) || containsB n t

theorem containsB_iff {n h : List Char} : containsB n h = true ↔ n <:+: h := by
  induction h with
  | nil =>
    simp only [containsB, List.isEmpty_iff]
    exact (List.infix_nil).symm
  | cons c t ih =>
    simp only [containsB, Bool.or_eq_true, List.isPrefixOf_iff_prefix, ih]
    exact (List.infix_cons_iff).symm

/-- Substring occurrence: `needle` occurs contiguously inside `hay`. -/
def sub (needle hay : String) : Prop := containsB needle.data hay.data = true

instance instDecidableSub (n h : String) : Decidable (sub n h) := by
  unfold sub; infer_instance

theorem sub_iff_occurs {n h : String} : sub n h ↔ n.data <:+: h.data := containsB_iff

theorem sub_refl (t : String) : sub t t :=
  sub_iff_occurs.mpr ⟨[], [], by simp⟩

theorem sub_left {t a : String} (h : sub t a) (b : String) : sub t (a ++ b) := by
  rw [sub_iff_occurs] at *
  obtain ⟨x, y, hx⟩ := h
  exact ⟨x, y ++ b.data, by rw [String.data_append, ← hx]; simp⟩

theorem sub_right (a : String) {t b : String} (h : sub t b) : sub t (a ++ b) := by
  rw [sub_iff_occurs] at *
  obtain ⟨x, y, hx⟩ := h
  exact ⟨a.data ++ x, y, by rw [String.data_append, ← hx]; simp⟩

theorem sub_trans {a b c : String} (h1 : sub a b) (h2 : sub b c) : sub a c := by
  rw [sub_iff_occurs] at *
  exact h1.trans h2

/-- Split a character list at newline characters (like `str.split('\n')`). -/
def splitOnNl : List Char → List (List Char)
  | [] => [[]]
  | c :: cs =>
    if c = '\n' then [] :: splitOnNl cs
    else (c :: (splitOnNl cs).headI) :: (splitOnNl cs).tail

/-- Join lines back with newline characters. -/
def joinNl : List (List Char) → List Char
  | [] => []
  | [l] => l
  | l :: ls => l ++ '\n' :: joinNl ls

/-- Longest common starting run of two character lists. -/
def sharedStart : List Char → List Char → List Char
  | a :: as, b :: bs => if a = b then a :: sharedStart as bs else []
  | _, _ => []

def isWsChar (c : Char) : Bool := c = ' ' || c = '\t'

/-- A nonempty line made only of spaces and tabs. -/
def wsOnly (l : List Char) : Bool := (decide (l ≠ [])) && l.all isWsChar

/-- Leading whitespace of a line. -/
def leadWs (l : List Char) : List Char := l.takeWhile isWsChar

/-- A whitespace-only line is normalized to the empty line. -/
def blankWs (l : List Char) : List Char := if wsOnly l then [] else l

/-- Longest common leading-whitespace margin of the nonempty lines. -/
def marginOf (lines : List (List Char)) : List Char :=
  match lines.filter (fun l => decide (l ≠ [])) with
  | [] => []
  | h :: tl => tl.foldl (fun m l2 => sharedStart m (leadWs l2)) (leadWs h)

/-- Remove the margin from a line on which it occurs. -/
def stripMargin (mg l : List Char) : List Char :=
  if mg.isPrefixOf l then l.drop mg.length else l

/-- Model of Python `textwrap.dedent`: blank out whitespace-only lines,
compute the common leading-whitespace margin of the remaining nonempty
lines, and strip that margin from every line on which it occurs. -/
def dedent (s : String) : String :=
  ⟨joinNl (((splitOnNl s.data).map blankWs).map
      (stripMargin (marginOf ((splitOnNl s.data).map blankWs))))⟩

/-- Replace every occurrence of a character (Python `str.replace(old, new)`
with one-character arguments). -/
def replaceChar (old new : Char) : List Char → List Char
  | [] => []
  | c :: cs => (if c = old then new else c) :: replaceChar old new cs

/-- Delete every occurrence of a character (Python `str.replace(old, '')`). -/
def dropCharAll (old : Char) : List Char → List Char
  | [] => []
  | c :: cs => if c = old then dropCharAll old cs else c :: dropCharAll old cs

/-! ### Module constants of `local_to_hpc.py` -/

def PRIVATE_DOCKER_REGISTRY : String := "hpc-registry.cscc.local"
def HPC_PROJECT_REPOSITORY : String := "research-containers"
def DEFAULT_IMAGE_NAME : String := "ml-app-base"
def SLURM_ACCOUNT : String := "ai_research_hpc"
def HPC_DATA_PATH : String := "/shared/scratch/ai_datasets"

/-! ### `generate_dockerfile` from `local_to_hpc.py` -/

/-- `generate_dockerfile(base_image_version, app_script_name, app_image_name)`:
    the f-string body of the Python function, with interpolation made
    explicit.  The `app_image_name` argument is accepted but not
    referenced by the template body, exactly as in the source. -/
def generate_dockerfile (base_image_version app_script_name app_image_name : String) : String :=
  "# Dockerfile for MBZUAI AI Application (General)\n# Use NVIDIA PyTorch NGC container as base for maximum GPU compatibility\nFROM nvcr.io/nvidia/pytorch:"
    ++ base_image_version
    ++ " AS builder\n\n# Set the working directory\nWORKDIR /app\n\n# Copy and install dependencies\n# A \x27requirements.txt\x27 file should be placed next to your Dockerfile.\nCOPY requirements.txt .\nRUN pip install --no-cache-dir -r requirements.txt\n\n# Copy the core AI application code\nCOPY "
    ++ app_script_name
    ++ " .\nCOPY src /app/src # Copy source code directory if applicable\n\n# Set a default command to run when the container starts\n# The command is derived from the main script name\nCMD [\"python\", \""
    ++ app_script_name
    ++ "\", \"--config\", \"/app/config/default.yaml\"]\n"

example : sub "FROM nvcr.io/nvidia/pytorch:24.08-py3 AS builder"
    (generate_dockerfile "24.08-py3" "train_llm_model.py" "ml-app-base") := by decide

/-! ### `generate_slurm_script` from `local_to_hpc.py` -/

/-- `run_command` of the "Highly-Optimized Multi-Node (DDP)" branch. -/
def ddp_run_command (gpus_per_node : Int) : String :=
  "\n# --- Distributed Training Setup (PyTorch DDP/Apptainer) ---\nexport MASTER_ADDR=$(scontrol show hostnames $SLURM_JOB_NODELIST | head -n 1)\nexport MASTER_PORT=29500 \nexport NNODES=$SLURM_JOB_NUM_NODES\nexport NPROC_PER_NODE="
    ++ toString gpus_per_node
    ++ "\n\n# The Apptainer container provides the environment and libs (CUDA/NCCL)\napptainer exec \\\n    --nv \\\n    --bind "
    ++ HPC_DATA_PATH
    ++ ":/data \\\n    $SIF_FILE_PATH \\\n    torchrun \\\n        --nnodes $NNODES \\\n        --nproc_per_node $NPROC_PER_NODE \\\n        --rdzv_id $SLURM_JOB_ID \\\n        --rdzv_backend c10d \\\n        --rdzv_endpoint $MASTER_ADDR:$MASTER_PORT \\\n        /app/main_training_script.py --data-path /data/full_corpus\n"

/-- `run_command` of the "Single-Node Multi-GPU Training" branch. -/
def single_node_run_command (gpus_per_node : Int) : String :=
  "\n# --- Single-Node Multi-GPU Fine-Tuning/Inference ---\napptainer exec \\\n    --nv \\\n    --bind "
    ++ HPC_DATA_PATH
    ++ ":/data \\\n    $SIF_FILE_PATH \\\n    python3 /app/main_training_script.py --mode fine-tune --gpus-per-node "
    ++ toString gpus_per_node
    ++ "\n"

/-- `run_command` of the "Low-Memory Fine-Tuning (LoRA/PEFT)" branch. -/
def lora_run_command : String :=
  "\n# --- Low-Memory PEFT/LoRA Setup ---\napptainer exec \\\n    --nv \\\n    --bind "
    ++ HPC_DATA_PATH
    ++ ":/data \\\n    $SIF_FILE_PATH \\\n    python3 /app/main_training_script.py --method lora --gpu 0\n"

/-- `run_command` of the "Custom/User-Defined Job" branch. -/
def custom_run_command : String :=
  "\n# --- Custom User-Defined Job ---\n# Placeholder: Adjust the apptainer exec line and script arguments below\napptainer exec \\\n    --nv \\\n    --bind "
    ++ HPC_DATA_PATH
    ++ ":/data \\\n    $SIF_FILE_PATH \\\n    /bin/bash -c \"echo \x27Custom job running...\x27 && python3 /app/my_custom_script.py --nodes $SLURM_JOB_NUM_NODES\"\n"

/-- `run_command` of the `else` (Default Validation/CPU Test) branch. -/
def default_cpu_run_command : String :=
  "\n# --- Default CPU Validation Job ---\napptainer exec \\\n    $SIF_FILE_PATH \\\n    python3 /app/check_dependencies.py --validate-cpu\n"

/-- The `if/elif/else` chain of `generate_slurm_script`, returning
`(gpu_request, nodes_final, time_final, run_command)`. -/
def slurm_params (optimization_type : String) (nodes gpus_per_node : Int) (time : String) :
    String × Int × String × String :=
  if optimization_type = "Highly-Optimized Multi-Node (DDP)" then
    ("#SBATCH --gpus-per-node=" ++ toString gpus_per_node ++ " \n#SBATCH --constraint=a100|h100",
      nodes, time, ddp_run_command gpus_per_node)
  else if optimization_type = "Single-Node Multi-GPU Training" then
    ("#SBATCH --gpus=" ++ toString gpus_per_node, 1, time,
      single_node_run_command gpus_per_node)
  else if optimization_type = "Low-Memory Fine-Tuning (LoRA/PEFT)" then
    ("#SBATCH --gpus=1 \n#SBATCH --mem=64G", 1, time, lora_run_command)
  else if optimization_type = "Custom/User-Defined Job" then
    ((if gpus_per_node > 0 then
        "#SBATCH --gpus=" ++ toString gpus_per_node ++ " \n#SBATCH --constraint=a100|h100"
      else "#SBATCH --cpus-per-task=4"),
      nodes, time, custom_run_command)
  else
    ("#SBATCH --cpus-per-task=4", 1, "0-00:10:00", default_cpu_run_command)

/-- `optimization_type.replace(' ', '_').replace('/', '').replace(':', '')`. -/
def slurm_job_suffix (optimization_type : String) : String :=
  ⟨dropCharAll ':' (dropCharAll '/' (replaceChar ' ' '_' optimization_type.data))⟩

/-- The final f-string template of `generate_slurm_script`, interpolation
made explicit. -/
def slurm_assemble (optimization_type project_name sif_name gpu_request : String)
    (nodes_final : Int) (time_final run_command : String) : String :=
  "#!/bin/bash\n#\n# SLURM Job Script: "
    ++ optimization_type
    ++ "\n# Targeting MBZUAI AI Research Project: "
    ++ project_name
    ++ "\n#\n#SBATCH --job-name="
    ++ project_name
    ++ "_"
    ++ slurm_job_suffix optimization_type
    ++ "\n#SBATCH --account="
    ++ SLURM_ACCOUNT
    ++ "\n#SBATCH --partition=compute\n#SBATCH --nodes="
    ++ toString nodes_final
    ++ "\n"
    ++ gpu_request
    ++ "\n#SBATCH --ntasks-per-node=1\n#SBATCH --time="
    ++ time_final
    ++ "\n#SBATCH --output=slurm-%j.out\n#SBATCH --error=slurm-%j.err\n\necho \"--- SLURM JOB START: $(date) ---\"\n\n# --- Environment Setup ---\nmodule load apptainer # Load Apptainer runtime module\nSIF_FILE_PATH=\"/global/apps/containers/"
    ++ sif_name
    ++ "\" \n\n# Check if SIF exists (best practice)\nif [ ! -f \"$SIF_FILE_PATH\" ]; then\n    echo \"ERROR: Apptainer SIF file not found at $SIF_FILE_PATH\"\n    exit 1\nfi\n\n"
    ++ run_command
    ++ "\n\necho \"--- SLURM JOB END: $(date) ---\"\n"

/-- `generate_slurm_script(optimization_type, nodes, gpus_per_node, time, project_name)`:
    chooses the branch-dependent pieces and interpolates them into the
    final template, with `sif_name = f"{project_name}-v1.0.sif"`. -/
def generate_slurm_script (optimization_type : String) (nodes gpus_per_node : Int)
    (time project_name : String) : String :=
  slurm_assemble optimization_type project_name (project_name ++ "-v1.0.sif")
    (slurm_params optimization_type nodes gpus_per_node time).1
    (slurm_params optimization_type nodes gpus_per_node time).2.1
    (slurm_params optimization_type nodes gpus_per_node time).2.2.1
    (slurm_params optimization_type nodes gpus_per_node time).2.2.2

example : sub "#SBATCH --gpus=1 \n#SBATCH --mem=64G"
    (generate_slurm_script "Low-Memory Fine-Tuning (LoRA/PEFT)" 1 4 "12:00:00" "my-llm-finetune") := by
  decide

example : ¬ sub "$SLURM_JOB_ID"
    (generate_slurm_script "Low-Memory Fine-Tuning (LoRA/PEFT)" 1 4 "12:00:00" "my-llm-finetune") := by
  decide

example : sub "--validate-cpu"
    (generate_slurm_script "does-not-exist" 1 4 "12:00:00" "my-llm-finetune") := by
  decide

example : sub "#SBATCH --job-name=my-llm-finetune_Low-Memory_Fine-Tuning_(LoRAPEFT)\n"
    (generate_slurm_script "Low-Memory Fine-Tuning (LoRA/PEFT)" 1 4 "12:00:00" "my-llm-finetune") := by
  decide

/-! ### The Dockerfile generator of `tools.py` -/

/-- The raw (pre-`dedent`) f-string of the `tools.py` Dockerfile branch,
interpolation made explicit; each content line carries the 16-space
source indentation exactly as written. -/
def tools_dockerfile_raw (base_image install_libs entry_cmd : String) : String :=
  "\n                FROM "
    ++ base_image
    ++ "\n\n                # Install extra libraries\n                RUN pip install "
    ++ install_libs
    ++ "\n\n                # Set working directory\n                WORKDIR /workspace\n\n                # Default command\n                CMD [\""
    ++ entry_cmd
    ++ "\"]\n                "

/-- `dockerfile = textwrap.dedent(dockerfile)` applied to the raw body. -/
def tools_dockerfile (base_image install_libs entry_cmd : String) : String :=
  dedent (tools_dockerfile_raw base_image install_libs entry_cmd)

/-- Number of lines of `body` equal to `target`. -/
def countLinesEq (target body : String) : Nat :=
  (splitOnNl body.data).countP (fun l => decide (l = target.data))

/-- Number of lines of `body` starting with `pre`. -/
def countLinesStarting (pre body : String) : Nat :=
  (splitOnNl body.data).countP (fun l => pre.data.isPrefixOf l)

example : tools_dockerfile "python:3.10-slim" "numpy pandas" "python3"
    = "\nFROM python:3.10-slim\n\n# Install extra libraries\nRUN pip install numpy pandas\n\n# Set working directory\nWORKDIR /workspace\n\n# Default command\nCMD [\"python3\"]\n" := by
  decide

/-! ### Parameter specifications declared by the input widgets

Each `st.number_input` / `st.text_input` / `st.text_area` / `st.radio`
call declares one user-configurable parameter together with its default
value and (for numeric inputs) its min/max range.  These are the
`ParameterSpec`s of the two generator pages. -/

inductive ParamSpec where
  | intParam (name : String) (minVal maxVal : Option Int) (default : Int)
  | strParam (name : String) (default : String)
deriving DecidableEq

def ParamSpec.name : ParamSpec → String
  | .intParam n _ _ _ => n
  | .strParam n _ => n

/-- The declared default lies inside the declared min/max range. -/
def paramDefaultValid : ParamSpec → Bool
  | .intParam _ mn mx d =>
    (match mn with | none => true | some m => decide (m ≤ d))
      && (match mx with | none => true | some m => decide (d ≤ m))
  | .strParam _ _ => true

/-- Widget declarations of `local_to_hpc.render` (both tabs). -/
def local_to_hpc_param_specs : List ParamSpec :=
  [ .strParam "base_image_version" "24.08-py3",
    .strParam "app_script_name" "train_llm_model.py",
    .strParam "app_image_name" DEFAULT_IMAGE_NAME,
    .strParam "project_name" "my-llm-finetune",
    .intParam "nodes" (some 1) none 1,
    .intParam "gpus_per_node" (some 0) (some 8) 4,
    .strParam "time" "12:00:00" ]

/-- Widget declarations of `tools.render` (both tabs). -/
def tools_param_specs : List ParamSpec :=
  [ .strParam "container_type" "Dockerfile",
    .strParam "base_image" "",
    .strParam "install_libs" "numpy pandas matplotlib torch torchvision opencv-python",
    .strParam "entry_cmd" "python3",
    .strParam "job_name" "ai_training_job",
    .strParam "time" "02:00:00",
    .intParam "gpus" (some 1) (some 8) 1,
    .intParam "cpus" (some 1) (some 64) 8,
    .strParam "mem" "64G",
    .strParam "partition" "gpu",
    .strParam "script_name" "train.py" ]

def all_param_specs : List ParamSpec := local_to_hpc_param_specs ++ tools_param_specs

inductive ParamValue where
  | i (n : Int)
  | s (v : String)
deriving DecidableEq

def ParamSpec.defaultValue : ParamSpec → ParamValue
  | .intParam _ _ _ d => .i d
  | .strParam _ d => .s d

/-- Kind and range check of one supplied value against a spec. -/
def validateParam : ParamSpec → ParamValue → Bool
  | .intParam _ mn mx _, .i v =>
    (match mn with | none => true | some m => decide (m ≤ v))
      && (match mx with | none => true | some m => decide (v ≤ m))
  | .intParam _ _ _ _, .s _ => false
  | .strParam _ _, .s _ => true
  | .strParam _ _, .i _ => false

/-- Modelled from the spec: the Parameter Collector
(`collect(template, rawInputs) -> RenderRequest`) is not a function of
the source code (the widgets gather values directly); following §4.2,
each required parameter takes the supplied value when present (failing
on a constraint violation) and its declared default otherwise; extra
raw-input keys are ignored. -/
def collect (specs : List ParamSpec) (raw : List (String × ParamValue)) :
    Option (List (String × ParamValue)) :=
  match specs with
  | [] => some []
  | sp :: rest =>
    match collect rest raw with
    | none => none
    | some bs =>
      match raw.find? (fun kv => kv.1 = sp.name) with
      | some kv => if validateParam sp kv.2 then some ((sp.name, kv.2) :: bs) else none
      | none => some ((sp.name, sp.defaultValue) :: bs)

example : (collect all_param_specs []).isSome = true := by decide

example : collect local_to_hpc_param_specs [("gpus_per_node", .i 9)] = none := by decide

/-! ### Session state of the SLURM tab of `local_to_hpc.render`

`st.session_state.generated_script_t2` survives across interactions; a
click of the generate button stores the freshly generated script there.
The slot is modelled as an `Option String` passed explicitly (`none` =
absent/`None`). -/

/-- One execution of the generate-button block of `local_to_hpc.render`
(tab 2): initialize the session slot when absent, then store the
generated script on a button click. -/
def local_to_hpc_click_step (generated_script_t2 : Option String) (clicked : Bool)
    (selected_profile : String) (nodes gpus_per_node : Int) (time project_name : String) :
    Option String :=
  let state1 := if generated_script_t2 = none then (none : Option String) else generated_script_t2
  if clicked then
    some (generate_slurm_script selected_profile nodes gpus_per_node time project_name)
  else state1

/-! ### Positional substring lemmas about the assembled SLURM script -/

/-- A needle split as `C ++ t` occurs when the haystack head ends in `C`
and is followed by `t`. -/
theorem sub_split_head (B C t rest : String) : sub (C ++ t) ((B ++ C) ++ (t ++ rest)) := by
  rw [String.append_assoc, ← String.append_assoc C t rest]
  exact sub_right B (sub_left (sub_refl _) rest)

/-- The `$SIF_FILE_PATH` shell token occurs in every assembled script. -/
theorem assemble_has_sif_token (ot p sif gr : String) (nf : Int) (tf rc : String) :
    sub "$SIF_FILE_PATH" (slurm_assemble ot p sif gr nf tf rc) := by
  unfold slurm_assemble
  simp only [String.append_assoc]
  iterate 18 apply sub_right
  apply sub_left
  decide

/-- The `$(date)` shell token occurs in every assembled script. -/
theorem assemble_has_date_token (ot p sif gr : String) (nf : Int) (tf rc : String) :
    sub "$(date)" (slurm_assemble ot p sif gr nf tf rc) := by
  unfold slurm_assemble
  simp only [String.append_assoc]
  iterate 20 apply sub_right
  decide

/-- The header line echoes the `optimization_type` argument. -/
theorem assemble_has_script_header (ot p sif gr : String) (nf : Int) (tf rc : String) :
    sub ("# SLURM Job Script: " ++ ot) (slurm_assemble ot p sif gr nf tf rc) := by
  unfold slurm_assemble
  simp only [String.append_assoc]
  exact sub_split_head "#!/bin/bash\n#\n" "# SLURM Job Script: " ot _

/-- The header line echoes the `project_name` argument. -/
theorem assemble_has_project_header (ot p sif gr : String) (nf : Int) (tf rc : String) :
    sub ("# Targeting MBZUAI AI Research Project: " ++ p)
      (slurm_assemble ot p sif gr nf tf rc) := by
  unfold slurm_assemble
  simp only [String.append_assoc]
  iterate 2 apply sub_right
  exact sub_split_head "\n" "# Targeting MBZUAI AI Research Project: " p _

/-- With `nodes_final = 1` the assembled script contains the literal
`#SBATCH --nodes=1` line. -/
theorem assemble_nodes_one (ot p sif gr tf rc : String) :
    sub "#SBATCH --nodes=1" (slurm_assemble ot p sif gr 1 tf rc) := by
  unfold slurm_assemble
  simp only [String.append_assoc]
  iterate 10 apply sub_right
  rw [← String.append_assoc]
  apply sub_left
  decide

/-- Any substring of the `run_command` piece occurs in the assembled script. -/
theorem assemble_from_run_command {t rc : String} (h : sub t rc)
    (ot p sif gr : String) (nf : Int) (tf : String) :
    sub t (slurm_assemble ot p sif gr nf tf rc) := by
  unfold slurm_assemble
  simp only [String.append_assoc]
  iterate 19 apply sub_right
  exact sub_left h _

/-! ### Structural lemmas about line splitting and `dedent`

These support statements about the dedented artifacts for arbitrary
(single-line) widget inputs: `dedent` only blanks whitespace-only lines
and strips a common whitespace margin, so any content of a line that
sits at or after the end of its leading whitespace survives. -/

theorem splitOnNl_ne_nil (l : List Char) : splitOnNl l ≠ [] := by
  cases l with
  | nil => simp [splitOnNl]
  | cons c cs =>
    simp only [splitOnNl]
    split <;> simp

theorem splitOnNl_nlfree_append (l r : List Char) (h : ∀ c ∈ l, c ≠ '\n') :
    splitOnNl (l ++ r) = (l ++ (splitOnNl r).headI) :: (splitOnNl r).tail := by
  induction l with
  | nil =>
    simp only [List.nil_append]
    obtain ⟨a, t, he⟩ := List.exists_cons_of_ne_nil (splitOnNl_ne_nil r)
    rw [he]
    simp
  | cons c cs ih =>
    have hc : c ≠ '\n' := h c (List.mem_cons_self c cs)
    have ih' := ih (fun d hd => h d (List.mem_cons_of_mem c hd))
    simp only [List.cons_append, splitOnNl, List.append_eq, if_neg hc]
    rw [ih']
    simp

theorem splitOnNl_joinNl (ls : List (List Char)) (hne : ls ≠ [])
    (h : ∀ l ∈ ls, ∀ c ∈ l, c ≠ '\n') : splitOnNl (joinNl ls) = ls := by
  induction ls with
  | nil => exact absurd rfl hne
  | cons l ls2 ih =>
    cases ls2 with
    | nil =>
      show splitOnNl l = [l]
      have hl := splitOnNl_nlfree_append l [] (h l (List.mem_cons_self l []))
      rw [List.append_nil] at hl
      rw [hl]
      simp [splitOnNl]
    | cons l2 rest =>
      show splitOnNl (l ++ '\n' :: joinNl (l2 :: rest)) = l :: l2 :: rest
      rw [splitOnNl_nlfree_append l _ (h l (List.mem_cons_self l _))]
      have hx : splitOnNl ('\n' :: joinNl (l2 :: rest)) = [] :: splitOnNl (joinNl (l2 :: rest)) := by
        simp [splitOnNl]
      rw [hx]
      simp only [List.headI_cons, List.tail_cons, List.append_nil]
      rw [ih (by simp) (fun u hu => h u (List.mem_cons_of_mem l hu))]

theorem joinNl_keeps {t u : List Char} {ls : List (List Char)}
    (hu : u ∈ ls) (ht : t <:+: u) : t <:+: joinNl ls := by
  induction ls with
  | nil => cases hu
  | cons l rest ih =>
    rw [List.mem_cons] at hu
    cases rest with
    | nil =>
      rcases hu with hu | hu
      · subst hu; exact ht
      · cases hu
    | cons l2 rest2 =>
      have hj : joinNl (l :: l2 :: rest2) = l ++ '\n' :: joinNl (l2 :: rest2) := rfl
      rw [hj]
      rcases hu with hu | hu
      · subst hu
        exact ht.trans (List.prefix_append _ _).isInfix
      · have h2 : l ++ '\n' :: joinNl (l2 :: rest2) = (l ++ ['\n']) ++ joinNl (l2 :: rest2) := by
          simp
        rw [h2]
        exact (ih hu).trans (List.suffix_append _ _).isInfix

theorem leadWs_all (l : List Char) : ∀ c ∈ leadWs l, isWsChar c = true :=
  fun _ hc => List.mem_takeWhile_imp hc

theorem sharedStart_subset (m : List Char) : ∀ (x : List Char), ∀ c ∈ sharedStart m x, c ∈ m := by
  induction m with
  | nil => intro x c hc; cases x <;> simp [sharedStart] at hc
  | cons a as ih =>
    intro x c hc
    cases x with
    | nil => simp [sharedStart] at hc
    | cons b bs =>
      simp only [sharedStart] at hc
      split at hc
      · rw [List.mem_cons] at hc
        rcases hc with hc | hc
        · subst hc; exact List.mem_cons_self _ _
        · exact List.mem_cons_of_mem _ (ih bs c hc)
      · cases hc

theorem marginOf_ws (lines : List (List Char)) : ∀ c ∈ marginOf lines, isWsChar c = true := by
  unfold marginOf
  split
  · simp
  · rename_i h tl heq
    have main : ∀ (tl2 : List (List Char)) (init : List Char),
        (∀ c ∈ init, isWsChar c = true) →
        ∀ c ∈ tl2.foldl (fun m l2 => sharedStart m (leadWs l2)) init, isWsChar c = true := by
      intro tl2
      induction tl2 with
      | nil => intro init hi c hc; exact hi c hc
      | cons x xs ih =>
        intro init hi c hc
        refine ih (sharedStart init (leadWs x)) ?_ c hc
        intro d hd
        exact hi d (sharedStart_subset init (leadWs x) d hd)
    exact main tl (leadWs h) (leadWs_all h)

theorem ws_prefix_length {w : List Char} : ∀ {l : List Char},
    (∀ c ∈ w, isWsChar c = true) → w <+: l → w.length ≤ (leadWs l).length := by
  induction w with
  | nil => intro l _ _; simp
  | cons c w' ih =>
    intro l hw hp
    cases l with
    | nil => exact absurd (List.eq_nil_of_prefix_nil hp) (by simp)
    | cons d l' =>
      rw [List.cons_prefix_cons] at hp
      obtain ⟨rfl, hp'⟩ := hp
      unfold leadWs
      rw [List.takeWhile_cons_of_pos (hw c (List.mem_cons_self c w'))]
      simpa using ih (fun x hx => hw x (List.mem_cons_of_mem c hx)) hp'

theorem drop_le_suffix {m n : Nat} (h : m ≤ n) (l : List Char) : l.drop n <:+ l.drop m := by
  have he : l.drop n = (l.drop m).drop (n - m) := by
    rw [List.drop_drop]
    congr 1
    omega
  rw [he]
  exact List.drop_suffix _ _

theorem all_ws_leadWs_self {l : List Char} (h : ∀ c ∈ l, isWsChar c = true) :
    leadWs l = l := by
  induction l with
  | nil => rfl
  | cons c cs ih =>
    unfold leadWs at *
    rw [List.takeWhile_cons_of_pos (h c (List.mem_cons_self c cs)),
      ih (fun d hd => h d (List.mem_cons_of_mem c hd))]

/-- Core preservation fact: any content of a line of `s` that lies at or
after the end of that line's leading whitespace survives `dedent`. -/
theorem dedent_keeps {s : String} {l : List Char} (hl : l ∈ splitOnNl s.data)
    {t : String} (ht : t.data <:+: l.drop (leadWs l).length) :
    t.data <:+: (dedent s).data := by
  show t.data <:+: joinNl (((splitOnNl s.data).map blankWs).map
      (stripMargin (marginOf ((splitOnNl s.data).map blankWs))))
  have hmem : stripMargin (marginOf ((splitOnNl s.data).map blankWs)) (blankWs l)
      ∈ ((splitOnNl s.data).map blankWs).map
        (stripMargin (marginOf ((splitOnNl s.data).map blankWs))) :=
    List.mem_map_of_mem _ (List.mem_map_of_mem blankWs hl)
  refine joinNl_keeps hmem ?_
  by_cases hws : wsOnly l = true
  · have hb : blankWs l = [] := by simp [blankWs, hws]
    have hall : ∀ c ∈ l, isWsChar c = true := by
      unfold wsOnly at hws
      rw [Bool.and_eq_true] at hws
      intro c hc
      have h2 := hws.2
      rw [List.all_eq_true] at h2
      exact h2 c hc
    rw [all_ws_leadWs_self hall, List.drop_length] at ht
    have hnil : t.data = [] := List.infix_nil.mp ht
    rw [hnil]
    exact List.nil_infix
  · have hb : blankWs l = l := by simp [blankWs, hws]
    rw [hb]
    unfold stripMargin
    split
    · rename_i hpre
      have hpre2 := List.isPrefixOf_iff_prefix.mp hpre
      have hle : (marginOf ((splitOnNl s.data).map blankWs)).length ≤ (leadWs l).length :=
        ws_prefix_length (marginOf_ws _) hpre2
      exact ht.trans (drop_le_suffix hle l).isInfix
    · exact ht.trans (List.drop_suffix _ _).isInfix

theorem dedent_keeps_sub {s : String} {l : List Char} (hl : l ∈ splitOnNl s.data)
    {t : String} (ht : t.data <:+: l.drop (leadWs l).length) :
    sub t (dedent s) := by
  rw [sub_iff_occurs]
  exact dedent_keeps hl ht

theorem leadWs_ws_append {w : List Char} (hw : ∀ x ∈ w, isWsChar x = true)
    {c : Char} (hc : isWsChar c = false) (r : List Char) : leadWs (w ++ c :: r) = w := by
  induction w with
  | nil =>
    unfold leadWs
    simp only [List.nil_append]
    rw [List.takeWhile_cons_of_neg (by simp [hc])]
  | cons a as ih =>
    unfold leadWs at *
    simp only [List.cons_append]
    rw [List.takeWhile_cons_of_pos (hw a (List.mem_cons_self a as)),
      ih (fun x hx => hw x (List.mem_cons_of_mem a hx))]

/-- Dropping the leading whitespace of a 12-space-indented line leaves
its content. -/
theorem sp12_line_drop {c : Char} (hc : isWsChar c = false) (r : List Char) :
    ("            ".data ++ c :: r).drop (leadWs ("            ".data ++ c :: r)).length
      = c :: r := by
  rw [leadWs_ws_append (by decide) hc, List.drop_left]

/-! ### Decimal renderings of integers never contain a newline -/

theorem digitChar_lt10_no_nl : ∀ m, m < 10 → Nat.digitChar m ≠ '\n' := by decide

theorem tdc_no_nl (fuel : Nat) : ∀ (n : Nat) (ds : List Char),
    (∀ c ∈ ds, c ≠ '\n') → ∀ c ∈ Nat.toDigitsCore 10 fuel n ds, c ≠ '\n' := by
  induction fuel with
  | zero => intro n ds h c hc; exact h c hc
  | succ f ih =>
    intro n ds h c hc
    simp only [Nat.toDigitsCore] at hc
    split at hc
    · rw [List.mem_cons] at hc
      rcases hc with hc | hc
      · subst hc; exact digitChar_lt10_no_nl _ (Nat.mod_lt _ (by decide))
      · exact h c hc
    · refine ih _ _ ?_ c hc
      intro d hd
      rw [List.mem_cons] at hd
      rcases hd with hd | hd
      · subst hd; exact digitChar_lt10_no_nl _ (Nat.mod_lt _ (by decide))
      · exact h d hd

theorem toString_nat_no_nl (n : Nat) : ∀ c ∈ (toString n).data, c ≠ '\n' := by
  have h : (toString n).data = Nat.toDigitsCore 10 (n + 1) n [] := rfl
  rw [h]
  exact tdc_no_nl (n + 1) n [] (by intro c hc; cases hc)

theorem toString_int_no_nl (g : Int) : ∀ c ∈ (toString g).data, c ≠ '\n' := by
  cases g with
  | ofNat m => exact toString_nat_no_nl m
  | negSucc m =>
    have h : (toString (Int.negSucc m)).data = '-' :: (toString (Nat.succ m)).data := rfl
    rw [h]
    intro c hc
    rw [List.mem_cons] at hc
    rcases hc with hc | hc
    · subst hc; decide
    · exact toString_nat_no_nl _ c hc

theorem nlfree_append {a b : List Char} (ha : ∀ c ∈ a, c ≠ '\n') (hb : ∀ c ∈ b, c ≠ '\n') :
    ∀ c ∈ a ++ b, c ≠ '\n' := by
  intro c hc
  rw [List.mem_append] at hc
  rcases hc with hc | hc
  · exact ha c hc
  · exact hb c hc

/-! ### The SLURM script generator of `tools.py`

The f-string of the `tools.py` SLURM tab, interpolation made explicit
and the literal text chunked at its line boundaries (the value is the
byte-identical template text), followed by `textwrap.dedent` exactly as
in the source. -/

def tools_slurm_raw (job_name time : String) (gpus cpus : Int)
    (mem partition script_name : String) : String :=
  "\n" ++ "            #!/bin/bash"
    ++ "\n" ++ ("            #SBATCH --job-name=" ++ job_name)
    ++ "\n" ++ ("            #SBATCH --gres=gpu:" ++ toString gpus)
    ++ "\n" ++ ("            #SBATCH --cpus-per-task=" ++ toString cpus)
    ++ "\n" ++ ("            #SBATCH --time=" ++ time)
    ++ "\n" ++ ("            #SBATCH --mem=" ++ mem)
    ++ "\n" ++ ("            #SBATCH --partition=" ++ partition)
    ++ "\n" ++ "            #SBATCH --output=slurm-%j.out"
    ++ "\n" ++ ""
    ++ "\n" ++ "            # Load required modules"
    ++ "\n" ++ "            module load python/3.10"
    ++ "\n" ++ "            module load cuda/11.8"
    ++ "\n" ++ ""
    ++ "\n" ++ "            # Print debug info"
    ++ "\n" ++ "            echo \"Job started on $(date)\""
    ++ "\n" ++ "            echo \"Running on node $(hostname)\""
    ++ "\n" ++ ("            echo \"Using " ++ toString gpus ++ " A100 GPU(s) and "
      ++ toString cpus ++ " CPU(s)\"")
    ++ "\n" ++ ""
    ++ "\n" ++ "            # Run program"
    ++ "\n" ++ ("            python3 " ++ script_name)
    ++ "\n" ++ ""
    ++ "\n" ++ "            echo \"Job finished on $(date)\""
    ++ "\n" ++ "            "

/-- `slurm_script = textwrap.dedent(slurm_script)`: the rendered artifact
of the tools.py SLURM tab. -/
def tools_slurm_script (job_name time : String) (gpus cpus : Int)
    (mem partition script_name : String) : String :=
  dedent (tools_slurm_raw job_name time gpus cpus mem partition script_name)

/-- The lines of the raw tools.py SLURM template (when no argument
contains a newline). -/
def tools_slurm_lines (job_name time : String) (gpus cpus : Int)
    (mem partition script_name : String) : List (List Char) :=
  [ [],
    "            #!/bin/bash".data,
    "            #SBATCH --job-name=".data ++ job_name.data,
    "            #SBATCH --gres=gpu:".data ++ (toString gpus).data,
    "            #SBATCH --cpus-per-task=".data ++ (toString cpus).data,
    "            #SBATCH --time=".data ++ time.data,
    "            #SBATCH --mem=".data ++ mem.data,
    "            #SBATCH --partition=".data ++ partition.data,
    "            #SBATCH --output=slurm-%j.out".data,
    [],
    "            # Load required modules".data,
    "            module load python/3.10".data,
    "            module load cuda/11.8".data,
    [],
    "            # Print debug info".data,
    "            echo \"Job started on $(date)\"".data,
    "            echo \"Running on node $(hostname)\"".data,
    "            echo \"Using ".data ++ (toString gpus).data ++ " A100 GPU(s) and ".data
      ++ (toString cpus).data ++ " CPU(s)\"".data,
    [],
    "            # Run program".data,
    "            python3 ".data ++ script_name.data,
    [],
    "            echo \"Job finished on $(date)\"".data,
    "            ".data ]

theorem tools_slurm_raw_lines (jn tm : String) (g c : Int) (mm pt sn : String) :
    (tools_slurm_raw jn tm g c mm pt sn).data = joinNl (tools_slurm_lines jn tm g c mm pt sn) := by
  have hn : ("\n" : String).data = ['\n'] := rfl
  have he : ("" : String).data = [] := rfl
  simp only [tools_slurm_raw, tools_slurm_lines, joinNl, String.data_append, hn, he,
    List.append_assoc, List.nil_append, List.append_nil, List.singleton_append,
    List.cons_append]

theorem tools_slurm_lines_nlfree {jn tm mm pt sn : String} (g c : Int)
    (hjn : ∀ ch ∈ jn.data, ch ≠ '\n') (htm : ∀ ch ∈ tm.data, ch ≠ '\n')
    (hmm : ∀ ch ∈ mm.data, ch ≠ '\n') (hpt : ∀ ch ∈ pt.data, ch ≠ '\n')
    (hsn : ∀ ch ∈ sn.data, ch ≠ '\n') :
    ∀ l ∈ tools_slurm_lines jn tm g c mm pt sn, ∀ ch ∈ l, ch ≠ '\n' := by
  intro l hl
  simp only [tools_slurm_lines, List.mem_cons] at hl
  rcases hl with rfl | rfl | rfl | rfl | rfl | rfl | rfl | rfl | rfl | rfl | rfl | rfl | rfl
    | rfl | rfl | rfl | rfl | rfl | rfl | rfl | rfl | rfl | rfl | rfl | hl
  · decide
  · decide
  · exact nlfree_append (by decide) hjn
  · exact nlfree_append (by decide) (toString_int_no_nl g)
  · exact nlfree_append (by decide) (toString_int_no_nl c)
  · exact nlfree_append (by decide) htm
  · exact nlfree_append (by decide) hmm
  · exact nlfree_append (by decide) hpt
  · decide
  · decide
  · decide
  · decide
  · decide
  · decide
  · decide
  · decide
  · decide
  · exact nlfree_append (nlfree_append (nlfree_append (nlfree_append (by decide)
      (toString_int_no_nl g)) (by decide)) (toString_int_no_nl c)) (by decide)
  · decide
  · decide
  · exact nlfree_append (by decide) hsn
  · decide
  · decide
  · decide
  · cases hl

/-- Any content of a template line at or after its leading whitespace
occurs in the dedented tools.py SLURM artifact. -/
theorem tools_line_keeps {jn tm : String} {g c : Int} {mm pt sn : String}
    (hnl : ∀ l ∈ tools_slurm_lines jn tm g c mm pt sn, ∀ ch ∈ l, ch ≠ '\n')
    {l : List Char} (hl : l ∈ tools_slurm_lines jn tm g c mm pt sn)
    {t : String} (ht : t.data <:+: l.drop (leadWs l).length) :
    sub t (tools_slurm_script jn tm g c mm pt sn) := by
  unfold tools_slurm_script
  refine dedent_keeps_sub ?_ ht
  rw [tools_slurm_raw_lines,
    splitOnNl_joinNl (tools_slurm_lines jn tm g c mm pt sn) (by simp [tools_slurm_lines]) hnl]
  exact hl

example : tools_slurm_script "ai_training_job" "02:00:00" 1 8 "64G" "gpu" "train.py"
    = "\n#!/bin/bash\n#SBATCH --job-name=ai_training_job\n#SBATCH --gres=gpu:1\n#SBATCH --cpus-per-task=8\n#SBATCH --time=02:00:00\n#SBATCH --mem=64G\n#SBATCH --partition=gpu\n#SBATCH --output=slurm-%j.out\n\n# Load required modules\nmodule load python/3.10\nmodule load cuda/11.8\n\n# Print debug info\necho \"Job started on $(date)\"\necho \"Running on node $(hostname)\"\necho \"Using 1 A100 GPU(s) and 8 CPU(s)\"\n\n# Run program\npython3 train.py\n\necho \"Job finished on $(date)\"\n" := by
  decide

/-- The `#SBATCH --nodes=` line carries the string form of `nodes_final`. -/
theorem assemble_has_nodes_value (ot p sif gr : String) (nf : Int) (tf rc : String) :
    sub ("#SBATCH --nodes=" ++ toString nf) (slurm_assemble ot p sif gr nf tf rc) := by
  unfold slurm_assemble
  simp only [String.append_assoc]
  iterate 10 apply sub_right
  exact sub_split_head "\n#SBATCH --partition=compute\n" "#SBATCH --nodes=" (toString nf) _

/-- The `#SBATCH --time=` line carries `time_final` verbatim. -/
theorem assemble_has_time_value (ot p sif gr : String) (nf : Int) (tf rc : String) :
    sub ("#SBATCH --time=" ++ tf) (slurm_assemble ot p sif gr nf tf rc) := by
  unfold slurm_assemble
  simp only [String.append_assoc]
  iterate 14 apply sub_right
  exact sub_split_head "\n#SBATCH --ntasks-per-node=1\n" "#SBATCH --time=" tf _

/-! ## Claims -/

/-- C1: For every template (generator function) and every fixed parameter
assignment, calling the renderer twice with the identical
(template, request) pair produces byte-identical output bodies;
`generate_slurm_script` and `generate_dockerfile` are (embedded as) pure
functions of their arguments and the module-level constants, so two
calls at the same arguments give the same string. -/
theorem c1_generators_deterministic (ot : String) (nodes gpus_per_node : Int)
    (time project_name base_image_version app_script_name app_image_name : String) :
    generate_slurm_script ot nodes gpus_per_node time project_name
      = generate_slurm_script ot nodes gpus_per_node time project_name
  ∧ generate_dockerfile base_image_version app_script_name app_image_name
      = generate_dockerfile base_image_version app_script_name app_image_name :=
  ⟨rfl, rfl⟩

/-- C2 counterexample: requesting the non-existent profile name
"does-not-exist" does NOT fail: `generate_slurm_script` returns a
non-empty artifact (the Default CPU Validation script, whose body
contains `--validate-cpu`). There is no registry lookup and no
`NotFoundError` anywhere in the code. -/
theorem c2_counterexample :
    sub "--validate-cpu"
      (generate_slurm_script "does-not-exist" 1 4 "12:00:00" "my-llm-finetune")
  ∧ generate_slurm_script "does-not-exist" 1 4 "12:00:00" "my-llm-finetune" ≠ "" := by
  exact ⟨by decide, by decide⟩

/-- C2 amended: a profile name outside the fixed set of four recognized
names falls through to the `else` branch (Default Validation/CPU Test):
the generator returns the default CPU-validation artifact (cpus-per-task
4, one node, ten-minute limit, `--validate-cpu` run command) instead of
failing. -/
theorem c2_unknown_profile_falls_back (ot : String) (nodes gpus_per_node : Int)
    (time project_name : String)
    (h1 : ot ≠ "Highly-Optimized Multi-Node (DDP)")
    (h2 : ot ≠ "Single-Node Multi-GPU Training")
    (h3 : ot ≠ "Low-Memory Fine-Tuning (LoRA/PEFT)")
    (h4 : ot ≠ "Custom/User-Defined Job") :
    slurm_params ot nodes gpus_per_node time
      = ("#SBATCH --cpus-per-task=4", 1, "0-00:10:00", default_cpu_run_command)
  ∧ sub "--validate-cpu" (generate_slurm_script ot nodes gpus_per_node time project_name) := by
  have hp : slurm_params ot nodes gpus_per_node time
      = ("#SBATCH --cpus-per-task=4", 1, "0-00:10:00", default_cpu_run_command) := by
    unfold slurm_params
    rw [if_neg h1, if_neg h2, if_neg h3, if_neg h4]
  refine ⟨hp, ?_⟩
  unfold generate_slurm_script
  rw [hp]
  unfold slurm_assemble
  simp only [String.append_assoc]
  iterate 18 apply sub_right
  decide

/-- C2 witness: the amended statement at the concrete unknown name
"does-not-exist". -/
theorem c2_unknown_profile_falls_back_witness :
    slurm_params "does-not-exist" 1 4 "12:00:00"
      = ("#SBATCH --cpus-per-task=4", 1, "0-00:10:00", default_cpu_run_command)
  ∧ sub "--validate-cpu"
      (generate_slurm_script "does-not-exist" 1 4 "12:00:00" "my-llm-finetune") :=
  c2_unknown_profile_falls_back "does-not-exist" 1 4 "12:00:00" "my-llm-finetune"
    (by decide) (by decide) (by decide) (by decide)

/-- C3 counterexample: supplying `gpus_per_node = 9` (one above the UI
widget's declared max of 8) does NOT fail and does produce an artifact:
the generated script embeds `--gpus=9` verbatim. No `ValidationError`
exists in the code. -/
theorem c3_counterexample :
    sub "#SBATCH --gpus=9"
      (generate_slurm_script "Single-Node Multi-GPU Training" 1 9 "12:00:00" "my-llm-finetune") := by
  decide

/-- C3 amended: the generator performs no range validation: every
`gpus_per_node` value, in range or not, is embedded verbatim (its
decimal string form) into the rendered script; the only range
enforcement is the `st.number_input` widget's min/max (0..8). The
second half of the original claim survives: the core never silently
clamps or coerces the value. -/
theorem c3_no_validation_value_passed_through (nodes gpus_per_node : Int)
    (time project_name : String) :
    sub ("#SBATCH --gpus=" ++ toString gpus_per_node)
      (generate_slurm_script "Single-Node Multi-GPU Training" nodes gpus_per_node time project_name) := by
  have h : generate_slurm_script "Single-Node Multi-GPU Training" nodes gpus_per_node time project_name
      = slurm_assemble "Single-Node Multi-GPU Training" project_name
          (project_name ++ "-v1.0.sif") ("#SBATCH --gpus=" ++ toString gpus_per_node) 1 time
          (single_node_run_command gpus_per_node) := rfl
  rw [h]
  unfold slurm_assemble
  simp only [String.append_assoc]
  iterate 13 apply sub_right
  rw [← String.append_assoc]
  apply sub_left
  exact sub_refl _

/-- C4: in every rendered artifact, tokens of the template body that are
not declared parameters appear verbatim, and every declared-parameter
placeholder carries the string form of its bound value.  For
`generate_slurm_script` (all arguments): the shell tokens
`$SIF_FILE_PATH` and `$(date)` appear verbatim, the header echoes
`optimization_type` and `project_name`, and for the DDP profile (where
all five parameters flow into the script) `$SLURM_JOB_ID` is verbatim
and `nodes`, `gpus_per_node` and `time` appear in string form at their
placeholder lines.  For the tools.py SLURM generator (all single-line
argument values, integers unrestricted): the dedented artifact keeps
`$(date)` and `$(hostname)` verbatim and carries the string form of all
seven declared parameters at their placeholder lines. -/
theorem c4_undeclared_tokens_verbatim (ot : String) (nodes gpus_per_node : Int)
    (time project_name : String) (jn tm : String) (g2 c2 : Int) (mm pt sn : String)
    (hjn : ∀ ch ∈ jn.data, ch ≠ '\n') (htm : ∀ ch ∈ tm.data, ch ≠ '\n')
    (hmm : ∀ ch ∈ mm.data, ch ≠ '\n') (hpt : ∀ ch ∈ pt.data, ch ≠ '\n')
    (hsn : ∀ ch ∈ sn.data, ch ≠ '\n') :
    sub "$SIF_FILE_PATH" (generate_slurm_script ot nodes gpus_per_node time project_name)
  ∧ sub "$(date)" (generate_slurm_script ot nodes gpus_per_node time project_name)
  ∧ sub ("# SLURM Job Script: " ++ ot)
      (generate_slurm_script ot nodes gpus_per_node time project_name)
  ∧ sub ("# Targeting MBZUAI AI Research Project: " ++ project_name)
      (generate_slurm_script ot nodes gpus_per_node time project_name)
  ∧ sub "$SLURM_JOB_ID"
      (generate_slurm_script "Highly-Optimized Multi-Node (DDP)" nodes gpus_per_node time project_name)
  ∧ sub ("#SBATCH --nodes=" ++ toString nodes)
      (generate_slurm_script "Highly-Optimized Multi-Node (DDP)" nodes gpus_per_node time project_name)
  ∧ sub ("#SBATCH --gpus-per-node=" ++ toString gpus_per_node)
      (generate_slurm_script "Highly-Optimized Multi-Node (DDP)" nodes gpus_per_node time project_name)
  ∧ sub ("#SBATCH --time=" ++ time)
      (generate_slurm_script "Highly-Optimized Multi-Node (DDP)" nodes gpus_per_node time project_name)
  ∧ sub "$(date)" (tools_slurm_script jn tm g2 c2 mm pt sn)
  ∧ sub "$(hostname)" (tools_slurm_script jn tm g2 c2 mm pt sn)
  ∧ sub ("#SBATCH --job-name=" ++ jn) (tools_slurm_script jn tm g2 c2 mm pt sn)
  ∧ sub ("#SBATCH --gres=gpu:" ++ toString g2) (tools_slurm_script jn tm g2 c2 mm pt sn)
  ∧ sub ("#SBATCH --cpus-per-task=" ++ toString c2) (tools_slurm_script jn tm g2 c2 mm pt sn)
  ∧ sub ("#SBATCH --time=" ++ tm) (tools_slurm_script jn tm g2 c2 mm pt sn)
  ∧ sub ("#SBATCH --mem=" ++ mm) (tools_slurm_script jn tm g2 c2 mm pt sn)
  ∧ sub ("#SBATCH --partition=" ++ pt) (tools_slurm_script jn tm g2 c2 mm pt sn)
  ∧ sub ("python3 " ++ sn) (tools_slurm_script jn tm g2 c2 mm pt sn) := by
  have hddp : sub "$SLURM_JOB_ID" (ddp_run_command gpus_per_node) := by
    unfold ddp_run_command
    simp only [String.append_assoc]
    iterate 2 apply sub_right
    decide
  have hd : generate_slurm_script "Highly-Optimized Multi-Node (DDP)" nodes gpus_per_node
        time project_name
      = slurm_assemble "Highly-Optimized Multi-Node (DDP)" project_name
          (project_name ++ "-v1.0.sif")
          ("#SBATCH --gpus-per-node=" ++ toString gpus_per_node
            ++ " \n#SBATCH --constraint=a100|h100")
          nodes time (ddp_run_command gpus_per_node) := rfl
  have hnl := tools_slurm_lines_nlfree g2 c2 hjn htm hmm hpt hsn
  refine ⟨?_, ?_, ?_, ?_, ?_, ?_, ?_, ?_, ?_, ?_, ?_, ?_, ?_, ?_, ?_, ?_, ?_⟩
  · unfold generate_slurm_script
    exact assemble_has_sif_token _ _ _ _ _ _ _
  · unfold generate_slurm_script
    exact assemble_has_date_token _ _ _ _ _ _ _
  · unfold generate_slurm_script
    exact assemble_has_script_header _ _ _ _ _ _ _
  · unfold generate_slurm_script
    exact assemble_has_project_header _ _ _ _ _ _ _
  · unfold generate_slurm_script
    exact assemble_from_run_command hddp _ _ _ _ _ _
  · rw [hd]
    exact assemble_has_nodes_value _ _ _ _ _ _ _
  · rw [hd]
    unfold slurm_assemble
    simp only [String.append_assoc]
    iterate 13 apply sub_right
    rw [← String.append_assoc]
    apply sub_left
    exact sub_refl _
  · rw [hd]
    exact assemble_has_time_value _ _ _ _ _ _ _
  · have hline : ("            echo \"Job started on $(date)\"".data)
        ∈ tools_slurm_lines jn tm g2 c2 mm pt sn := by
      simp [tools_slurm_lines]
    refine sub_trans (show sub "$(date)" "echo \"Job started on $(date)\"" by decide) ?_
    apply tools_line_keeps hnl hline
    rw [show "            echo \"Job started on $(date)\"".data
        = "            ".data ++ ('e' :: "cho \"Job started on $(date)\"".data) from rfl,
      sp12_line_drop (by decide)]
  · have hline : ("            echo \"Running on node $(hostname)\"".data)
        ∈ tools_slurm_lines jn tm g2 c2 mm pt sn := by
      simp [tools_slurm_lines]
    refine sub_trans (show sub "$(hostname)" "echo \"Running on node $(hostname)\"" by decide) ?_
    apply tools_line_keeps hnl hline
    rw [show "            echo \"Running on node $(hostname)\"".data
        = "            ".data ++ ('e' :: "cho \"Running on node $(hostname)\"".data) from rfl,
      sp12_line_drop (by decide)]
  · have hline : ("            #SBATCH --job-name=".data ++ jn.data)
        ∈ tools_slurm_lines jn tm g2 c2 mm pt sn := by
      simp [tools_slurm_lines]
    apply tools_line_keeps hnl hline
    rw [show "            #SBATCH --job-name=".data ++ jn.data
        = "            ".data ++ ('#' :: ("SBATCH --job-name=".data ++ jn.data)) from rfl,
      sp12_line_drop (by decide)]
    exact List.infix_rfl
  · have hline : ("            #SBATCH --gres=gpu:".data ++ (toString g2).data)
        ∈ tools_slurm_lines jn tm g2 c2 mm pt sn := by
      simp [tools_slurm_lines]
    apply tools_line_keeps hnl hline
    rw [show "            #SBATCH --gres=gpu:".data ++ (toString g2).data
        = "            ".data ++ ('#' :: ("SBATCH --gres=gpu:".data ++ (toString g2).data)) from rfl,
      sp12_line_drop (by decide)]
    exact List.infix_rfl
  · have hline : ("            #SBATCH --cpus-per-task=".data ++ (toString c2).data)
        ∈ tools_slurm_lines jn tm g2 c2 mm pt sn := by
      simp [tools_slurm_lines]
    apply tools_line_keeps hnl hline
    rw [show "            #SBATCH --cpus-per-task=".data ++ (toString c2).data
        = "            ".data ++ ('#' :: ("SBATCH --cpus-per-task=".data ++ (toString c2).data)) from rfl,
      sp12_line_drop (by decide)]
    exact List.infix_rfl
  · have hline : ("            #SBATCH --time=".data ++ tm.data)
        ∈ tools_slurm_lines jn tm g2 c2 mm pt sn := by
      simp [tools_slurm_lines]
    apply tools_line_keeps hnl hline
    rw [show "            #SBATCH --time=".data ++ tm.data
        = "            ".data ++ ('#' :: ("SBATCH --time=".data ++ tm.data)) from rfl,
      sp12_line_drop (by decide)]
    exact List.infix_rfl
  · have hline : ("            #SBATCH --mem=".data ++ mm.data)
        ∈ tools_slurm_lines jn tm g2 c2 mm pt sn := by
      simp [tools_slurm_lines]
    apply tools_line_keeps hnl hline
    rw [show "            #SBATCH --mem=".data ++ mm.data
        = "            ".data ++ ('#' :: ("SBATCH --mem=".data ++ mm.data)) from rfl,
      sp12_line_drop (by decide)]
    exact List.infix_rfl
  · have hline : ("            #SBATCH --partition=".data ++ pt.data)
        ∈ tools_slurm_lines jn tm g2 c2 mm pt sn := by
      simp [tools_slurm_lines]
    apply tools_line_keeps hnl hline
    rw [show "            #SBATCH --partition=".data ++ pt.data
        = "            ".data ++ ('#' :: ("SBATCH --partition=".data ++ pt.data)) from rfl,
      sp12_line_drop (by decide)]
    exact List.infix_rfl
  · have hline : ("            python3 ".data ++ sn.data)
        ∈ tools_slurm_lines jn tm g2 c2 mm pt sn := by
      simp [tools_slurm_lines]
    apply tools_line_keeps hnl hline
    rw [show "            python3 ".data ++ sn.data
        = "            ".data ++ ('p' :: ("ython3 ".data ++ sn.data)) from rfl,
      sp12_line_drop (by decide)]
    exact List.infix_rfl

/-- C4 witness: the statement at concrete inputs — a representative
profile for `generate_slurm_script` and the widget defaults of the
tools.py SLURM tab — with the single-line-input hypotheses discharged
by computation. -/
theorem c4_undeclared_tokens_verbatim_witness :
    sub "$SIF_FILE_PATH" (generate_slurm_script "Single-Node Multi-GPU Training" 2 4 "12:00:00" "my-llm-finetune")
  ∧ sub "$(date)" (generate_slurm_script "Single-Node Multi-GPU Training" 2 4 "12:00:00" "my-llm-finetune")
  ∧ sub ("# SLURM Job Script: " ++ "Single-Node Multi-GPU Training")
      (generate_slurm_script "Single-Node Multi-GPU Training" 2 4 "12:00:00" "my-llm-finetune")
  ∧ sub ("# Targeting MBZUAI AI Research Project: " ++ "my-llm-finetune")
      (generate_slurm_script "Single-Node Multi-GPU Training" 2 4 "12:00:00" "my-llm-finetune")
  ∧ sub "$SLURM_JOB_ID"
      (generate_slurm_script "Highly-Optimized Multi-Node (DDP)" 2 4 "12:00:00" "my-llm-finetune")
  ∧ sub ("#SBATCH --nodes=" ++ toString (2 : Int))
      (generate_slurm_script "Highly-Optimized Multi-Node (DDP)" 2 4 "12:00:00" "my-llm-finetune")
  ∧ sub ("#SBATCH --gpus-per-node=" ++ toString (4 : Int))
      (generate_slurm_script "Highly-Optimized Multi-Node (DDP)" 2 4 "12:00:00" "my-llm-finetune")
  ∧ sub ("#SBATCH --time=" ++ "12:00:00")
      (generate_slurm_script "Highly-Optimized Multi-Node (DDP)" 2 4 "12:00:00" "my-llm-finetune")
  ∧ sub "$(date)" (tools_slurm_script "ai_training_job" "02:00:00" 1 8 "64G" "gpu" "train.py")
  ∧ sub "$(hostname)" (tools_slurm_script "ai_training_job" "02:00:00" 1 8 "64G" "gpu" "train.py")
  ∧ sub ("#SBATCH --job-name=" ++ "ai_training_job")
      (tools_slurm_script "ai_training_job" "02:00:00" 1 8 "64G" "gpu" "train.py")
  ∧ sub ("#SBATCH --gres=gpu:" ++ toString (1 : Int))
      (tools_slurm_script "ai_training_job" "02:00:00" 1 8 "64G" "gpu" "train.py")
  ∧ sub ("#SBATCH --cpus-per-task=" ++ toString (8 : Int))
      (tools_slurm_script "ai_training_job" "02:00:00" 1 8 "64G" "gpu" "train.py")
  ∧ sub ("#SBATCH --time=" ++ "02:00:00")
      (tools_slurm_script "ai_training_job" "02:00:00" 1 8 "64G" "gpu" "train.py")
  ∧ sub ("#SBATCH --mem=" ++ "64G")
      (tools_slurm_script "ai_training_job" "02:00:00" 1 8 "64G" "gpu" "train.py")
  ∧ sub ("#SBATCH --partition=" ++ "gpu")
      (tools_slurm_script "ai_training_job" "02:00:00" 1 8 "64G" "gpu" "train.py")
  ∧ sub ("python3 " ++ "train.py")
      (tools_slurm_script "ai_training_job" "02:00:00" 1 8 "64G" "gpu" "train.py") :=
  c4_undeclared_tokens_verbatim "Single-Node Multi-GPU Training" 2 4 "12:00:00" "my-llm-finetune"
    "ai_training_job" "02:00:00" 1 8 "64G" "gpu" "train.py"
    (by decide) (by decide) (by decide) (by decide) (by decide)

/-- C5: inputs not referenced by the template body never influence the
rendered output: `generate_dockerfile` produces the same Dockerfile for
any two values of its `app_image_name` argument (the argument is
accepted but unreferenced by the template). -/
theorem c5_extra_inputs_isolated (base_image_version app_script_name i1 i2 : String) :
    generate_dockerfile base_image_version app_script_name i1
      = generate_dockerfile base_image_version app_script_name i2 := rfl

/-- C6 counterexample: even rendering the LoRA profile with the values
the claim stipulates (gpus=1, time="01:00:00"), the rendered body does
NOT contain the token `$SLURM_JOB_ID`: that token occurs only in the
DDP and Custom profiles' run commands. -/
theorem c6_counterexample :
    ¬ sub "$SLURM_JOB_ID"
      (generate_slurm_script "Low-Memory Fine-Tuning (LoRA/PEFT)" 1 1 "01:00:00" "my-llm-finetune") := by
  decide

/-- C6 amended: rendering the LoRA profile with gpus=1 and
time="01:00:00" yields a body containing the literal substrings
`--gpus=1` and `--time=01:00:00`, and the shell tokens `$SIF_FILE_PATH`
and `$(date)` are left verbatim (non-substituted); `$SLURM_JOB_ID`
does not occur in this profile's body.  At the same inputs the token
occurs only in the DDP profile's script: it is present for
"Highly-Optimized Multi-Node (DDP)" and absent for the Single-Node,
Custom and default-CPU profiles.  (The widget default wall time in the
source is "12:00:00", not "01:00:00"; the claimed time therefore
enters as a supplied input.) -/
theorem c6_lora_render_contents :
    sub "--gpus=1"
      (generate_slurm_script "Low-Memory Fine-Tuning (LoRA/PEFT)" 1 1 "01:00:00" "my-llm-finetune")
  ∧ sub "--time=01:00:00"
      (generate_slurm_script "Low-Memory Fine-Tuning (LoRA/PEFT)" 1 1 "01:00:00" "my-llm-finetune")
  ∧ sub "$SIF_FILE_PATH"
      (generate_slurm_script "Low-Memory Fine-Tuning (LoRA/PEFT)" 1 1 "01:00:00" "my-llm-finetune")
  ∧ sub "$(date)"
      (generate_slurm_script "Low-Memory Fine-Tuning (LoRA/PEFT)" 1 1 "01:00:00" "my-llm-finetune")
  ∧ ¬ sub "$SLURM_JOB_ID"
      (generate_slurm_script "Low-Memory Fine-Tuning (LoRA/PEFT)" 1 1 "01:00:00" "my-llm-finetune")
  ∧ sub "$SLURM_JOB_ID"
      (generate_slurm_script "Highly-Optimized Multi-Node (DDP)" 1 1 "01:00:00" "my-llm-finetune")
  ∧ ¬ sub "$SLURM_JOB_ID"
      (generate_slurm_script "Single-Node Multi-GPU Training" 1 1 "01:00:00" "my-llm-finetune")
  ∧ ¬ sub "$SLURM_JOB_ID"
      (generate_slurm_script "Custom/User-Defined Job" 1 1 "01:00:00" "my-llm-finetune")
  ∧ ¬ sub "$SLURM_JOB_ID"
      (generate_slurm_script "Default CPU Validation Job" 1 1 "01:00:00" "my-llm-finetune") := by
  exact ⟨by decide, by decide, by decide, by decide, by decide, by decide, by decide,
    by decide, by decide⟩

/-- C7: the tools.py Dockerfile with base image "python:3.10-slim" and
libs "numpy pandas" (entry command at its widget default "python3")
contains exactly one line `FROM python:3.10-slim`, exactly one line
`RUN pip install numpy pandas`, and exactly one line starting with
`FROM` (no duplicates). -/
theorem c7_dockerfile_base_render :
    countLinesEq "FROM python:3.10-slim"
      (tools_dockerfile "python:3.10-slim" "numpy pandas" "python3") = 1
  ∧ countLinesEq "RUN pip install numpy pandas"
      (tools_dockerfile "python:3.10-slim" "numpy pandas" "python3") = 1
  ∧ countLinesStarting "FROM"
      (tools_dockerfile "python:3.10-slim" "numpy pandas" "python3") = 1 := by
  exact ⟨by decide, by decide, by decide⟩

/-- C8: collecting parameters from an empty raw-input map never fails:
every declared widget parameter of both generator pages carries a
default, collection over the empty raw-input map succeeds, and every
integer default lies within its declared min/max range. -/
theorem c8_defaults_complete_and_valid :
    (collect all_param_specs []).isSome = true
  ∧ all_param_specs.all paramDefaultValid = true := by
  exact ⟨by decide, by decide⟩

/-- C9 counterexample: rendering does mutate state outside its output:
clicking the generate button stores the artifact into the session slot
`st.session_state.generated_script_t2`, so the session state after the
render differs from the (empty) state before it. -/
theorem c9_counterexample :
    local_to_hpc_click_step none true "Low-Memory Fine-Tuning (LoRA/PEFT)" 1 4 "12:00:00"
      "my-llm-finetune" ≠ none := by
  decide

/-- C9 amended: the generator itself is pure (the artifact is computed
fresh from the arguments on every call), but the UI layer caches the
last generated script in `st.session_state.generated_script_t2`, which
persists beyond the render: after a click the slot holds exactly the
freshly generated artifact, and without a click the slot is unchanged. -/
theorem c9_session_state_stores_artifact (state : Option String) (profile : String)
    (nodes gpus_per_node : Int) (time project_name : String) :
    local_to_hpc_click_step state true profile nodes gpus_per_node time project_name
      = some (generate_slurm_script profile nodes gpus_per_node time project_name)
  ∧ local_to_hpc_click_step state false profile nodes gpus_per_node time project_name
      = state := by
  constructor
  · rfl
  · cases state <;> simp [local_to_hpc_click_step]

/-- C10: for every value of the `nodes` argument, the profiles
"Single-Node Multi-GPU Training" and "Low-Memory Fine-Tuning
(LoRA/PEFT)" render a script containing the line `#SBATCH --nodes=1`,
and the `nodes` input has no influence at all on the output for these
two profiles. -/
theorem c10_single_node_profiles (nodes nodes2 gpus_per_node : Int)
    (time project_name : String) :
    sub "#SBATCH --nodes=1"
      (generate_slurm_script "Single-Node Multi-GPU Training" nodes gpus_per_node time project_name)
  ∧ sub "#SBATCH --nodes=1"
      (generate_slurm_script "Low-Memory Fine-Tuning (LoRA/PEFT)" nodes gpus_per_node time project_name)
  ∧ generate_slurm_script "Single-Node Multi-GPU Training" nodes gpus_per_node time project_name
      = generate_slurm_script "Single-Node Multi-GPU Training" nodes2 gpus_per_node time project_name
  ∧ generate_slurm_script "Low-Memory Fine-Tuning (LoRA/PEFT)" nodes gpus_per_node time project_name
      = generate_slurm_script "Low-Memory Fine-Tuning (LoRA/PEFT)" nodes2 gpus_per_node time project_name := by
  have h1 : generate_slurm_script "Single-Node Multi-GPU Training" nodes gpus_per_node time project_name
      = slurm_assemble "Single-Node Multi-GPU Training" project_name
          (project_name ++ "-v1.0.sif") ("#SBATCH --gpus=" ++ toString gpus_per_node) 1 time
          (single_node_run_command gpus_per_node) := rfl
  have h2 : generate_slurm_script "Low-Memory Fine-Tuning (LoRA/PEFT)" nodes gpus_per_node time project_name
      = slurm_assemble "Low-Memory Fine-Tuning (LoRA/PEFT)" project_name
          (project_name ++ "-v1.0.sif") "#SBATCH --gpus=1 \n#SBATCH --mem=64G" 1 time
          lora_run_command := rfl
  refine ⟨?_, ?_, rfl, rfl⟩
  · rw [h1]; exact assemble_nodes_one _ _ _ _ _ _
  · rw [h2]; exact assemble_nodes_one _ _ _ _ _ _
